import Mathlib

/-!
Verification development for the netawait repository (a macOS utility that
waits for a network-readiness condition by parsing route-socket messages).

The Rust sources are shallowly embedded: byte buffers are `List Nat` (one
entry per byte); the unsafe pointer casts of the source become reads of the
corresponding struct fields at their macOS byte offsets.  Out-of-range reads,
which are undefined behaviour in the unsafe source, are modelled as reading 0.
Fallible functions return `Except PErr`; a Rust panic (failed `assert!`,
out-of-range slice index, or `.unwrap()` on an error) is modelled by the
distinguished error value `PErr.Panicked`, which propagates like a Rust panic.
-/

namespace Netawait

/-- Decidable equality for `Except` results (both components decidable). -/
instance {ε α : Type} [DecidableEq ε] [DecidableEq α] : DecidableEq (Except ε α) :=
  fun a b =>
    match a, b with
    | .ok x, .ok y => decidable_of_iff (x = y) (by simp)
    | .error x, .error y => decidable_of_iff (x = y) (by simp)
    | .ok _, .error _ => isFalse (by simp)
    | .error _, .ok _ => isFalse (by simp)

/-- Read the byte at index `i` of a buffer (out-of-range reads yield 0). -/
def byteAt (data : List Nat) (i : Nat) : Nat :=
  data.getD i 0

/-- Read a little-endian (host-order on macOS) u16 at byte offset `i`. -/
def readLE16 (data : List Nat) (i : Nat) : Nat :=
  byteAt data i + 256 * byteAt data (i + 1)

/-- Read a little-endian (host-order on macOS) u32 at byte offset `i`. -/
def readLE32 (data : List Nat) (i : Nat) : Nat :=
  byteAt data i + 256 * byteAt data (i + 1) + 65536 * byteAt data (i + 2) +
    16777216 * byteAt data (i + 3)

/-- Read a big-endian (network-order) u16 at byte offset `i`, as done by
`u16::from_be` on the wire fields. -/
def readBE16 (data : List Nat) (i : Nat) : Nat :=
  256 * byteAt data i + byteAt data (i + 1)

/-! macOS constants used by the source (values from the macOS SDK headers). -/

def AF_INET : Nat := 2
def AF_INET6 : Nat := 30
def AF_LINK : Nat := 18

def RTA_DST : Nat := 1
def RTA_GATEWAY : Nat := 2
def RTA_NETMASK : Nat := 4
def RTA_GENMASK : Nat := 8
def RTA_IFP : Nat := 16
def RTA_IFA : Nat := 32
def RTA_AUTHOR : Nat := 64
def RTA_BRD : Nat := 128

def RTF_UP : Nat := 1
def RTF_GATEWAY : Nat := 2
def RTF_HOST : Nat := 4
def RTF_IFSCOPE : Nat := 16777216
def RTF_DEAD : Nat := 536870912

def RTM_ADD : Nat := 1
def RTM_DELETE : Nat := 2
def RTM_CHANGE : Nat := 3
def RTM_GET : Nat := 4
def RTM_GET2 : Nat := 20
def RTM_IFINFO : Nat := 14
def RTM_NEWADDR : Nat := 12
def RTM_DELADDR : Nat := 13
def RTM_NEWMADDR : Nat := 15
def RTM_DELMADDR : Nat := 16
def RTM_IFINFO2 : Nat := 18
def RTM_NEWMADDR2 : Nat := 19
def RTM_VERSION : Nat := 5

/-- Struct sizes on macOS (`std::mem::size_of` of the libc structs). -/
def sockaddrInSize : Nat := 16

def rtMsghdrSize : Nat := 92

def ifMsghdrSize : Nat := 112

def sockaddrDlSize : Nat := 20

/-- `AddressParseError` from `src/libroute/src/addresses.rs`, with an extra
constructor `Panicked` modelling a Rust panic (failed assertion, slice index
out of range, or `.unwrap()` of an error). -/
inductive PErr where
  | ZeroLen
  | DataEmpty
  | PartialData
  | WrongFamily (expected got : Nat)
  | NetmaskWithoutKnownProto
  | Panicked
deriving DecidableEq, Repr

/-- Rust `std::net::SocketAddrV4` (IPv4 address octets plus port). -/
structure SocketAddrV4 where
  octets : List Nat
  port : Nat
deriving DecidableEq, Repr

/-- Rust `std::net::SocketAddrV6`. -/
structure SocketAddrV6 where
  octets : List Nat
  port : Nat
  flowinfo : Nat
  scope_id : Nat
deriving DecidableEq, Repr

/-- `DataLinkAddr` from `addresses.rs`.  The interface name is kept as its
raw bytes (the source stores the UTF-8-lossy decoding of the same bytes). -/
structure DataLinkAddr where
  index : Nat
  link_layer_addr : List Nat
  interface_name : List Nat
deriving DecidableEq, Repr

/-- `SockAddr` from `addresses.rs`. -/
inductive SockAddr where
  | V4 (a : SocketAddrV4)
  | V6 (a : SocketAddrV6)
  | Link (a : DataLinkAddr)
deriving DecidableEq, Repr

/-- Rust `std::net::SocketAddr` (as returned by `parse_ip`). -/
inductive SocketAddr where
  | V4 (a : SocketAddrV4)
  | V6 (a : SocketAddrV6)
deriving DecidableEq, Repr

/-- Rust `std::net::IpAddr` (the netmask field of an `AddressSet`). -/
inductive IpAddr where
  | V4 (octets : List Nat)
  | V6 (octets : List Nat)
deriving DecidableEq, Repr

/-- `<SocketAddrV4 as NetStruct<sockaddr_in>>::from_raw`: port is read
big-endian from `sin_port` (offset 2), the address octets are bytes 4..8 of
the record (`u32::from_be` then `to_be_bytes` is the identity on the byte
order in memory). -/
def SocketAddrV4.from_raw (data : List Nat) : SocketAddrV4 :=
  { octets := [byteAt data 4, byteAt data 5, byteAt data 6, byteAt data 7]
    port := readBE16 data 2 }

/-- `<SocketAddrV6 as NetStruct<sockaddr_in6>>::from_raw`: `sin6_port`
big-endian at offset 2, `sin6_flowinfo` host-order at 4, the 16 address
octets at 8..24, `sin6_scope_id` host-order at 24. -/
def SocketAddrV6.from_raw (data : List Nat) : SocketAddrV6 :=
  { octets := (List.range 16).map (fun i => byteAt data (8 + i))
    port := readBE16 data 2
    flowinfo := readLE32 data 4
    scope_id := readLE32 data 24 }

/-- `DataLinkAddr::from_raw` (on a `sockaddr_dl`): asserts the family byte is
`AF_LINK`; `sdl_index` is at offset 2, `sdl_nlen` at 5, `sdl_alen` at 6, and
`sdl_data` is the 12 bytes at 8..20, holding name then link-layer address.
Slicing `sdl_data` out of range (when `nlen + alen > 12`) panics. -/
def DataLinkAddr.from_raw (data : List Nat) : Except PErr DataLinkAddr :=
  if byteAt data 1 ≠ AF_LINK then .error .Panicked
  else if byteAt data 5 + byteAt data 6 ≤ 12 then
    .ok { index := readLE16 data 2
          link_layer_addr :=
            (List.range (byteAt data 6)).map (fun i => byteAt data (8 + byteAt data 5 + i))
          interface_name := (List.range (byteAt data 5)).map (fun i => byteAt data (8 + i)) }
  else .error .Panicked

/-- `parse_ip` from `addresses.rs`.  The `data.is_empty()` early return is
commented out in the source; the family byte is `sa_family` at offset 1 and
the declared record length `sa_len` at offset 0. -/
def parse_ip (data : List Nat) : Except PErr (SocketAddr × Nat) :=
  if byteAt data 1 = AF_INET then .ok (.V4 (SocketAddrV4.from_raw data), byteAt data 0)
  else if byteAt data 1 = AF_INET6 then .ok (.V6 (SocketAddrV6.from_raw data), byteAt data 0)
  else .error (.WrongFamily AF_INET (byteAt data 1))

/-- `SockAddr::from_raw` from `addresses.rs`: dispatch on the family byte;
note that the known-family arms call the `NetStruct::from_raw` decoders
directly (no declared-length versus slice-length check), and the
unknown-family arm asserts `len != 0`. -/
def SockAddr.from_raw (data : List Nat) : Except PErr (Option SockAddr × Nat) :=
  if data.isEmpty then .error .DataEmpty
  else if byteAt data 1 = AF_INET then
    .ok (some (.V4 (SocketAddrV4.from_raw data)), byteAt data 0)
  else if byteAt data 1 = AF_INET6 then
    .ok (some (.V6 (SocketAddrV6.from_raw data)), byteAt data 0)
  else if byteAt data 1 = AF_LINK then
    match DataLinkAddr.from_raw data with
    | .ok dl => .ok (some (.Link dl), byteAt data 0)
    | .error e => .error e
  else if byteAt data 0 = 0 then .error .Panicked
  else .ok (none, byteAt data 0)

/-- `parse_address` from `addresses.rs`: empty-slice check, then
`SockAddr::from_raw(data).unwrap()` (an `Err` there would panic; the only
`Err` is the already-excluded empty case, and panics propagate). -/
def parse_address (data : List Nat) : Except PErr (Option SockAddr × Nat) :=
  if data.isEmpty then .error .DataEmpty
  else
    match SockAddr.from_raw data with
    | .ok r => .ok r
    | .error _ => .error .Panicked

/-- `parse_link` from `addresses.rs`: empty-slice check, assert the family is
`AF_LINK`, then decode a `DataLinkAddr` and return it with `sdl_len`. -/
def parse_link (data : List Nat) : Except PErr (DataLinkAddr × Nat) :=
  if data.isEmpty then .error .DataEmpty
  else if byteAt data 1 ≠ AF_LINK then .error .Panicked
  else
    match DataLinkAddr.from_raw data with
    | .ok dl => .ok (dl, byteAt data 0)
    | .error e => .error e

/-- `NetStruct::from_slice` specialised to `sockaddr_in`/`SocketAddrV4`
(the provided trait method in `addresses.rs`, which does carry the
`PartialData` declared-length check; it is not called by `SockAddr::from_raw`). -/
def SocketAddrV4.from_slice (data : List Nat) : Except PErr SocketAddrV4 :=
  if data.isEmpty then .error .DataEmpty
  else if data.length < byteAt data 0 then .error .PartialData
  else if byteAt data 1 ≠ AF_INET then .error (.WrongFamily AF_INET (byteAt data 1))
  else .ok (SocketAddrV4.from_raw data)

/-- `AddressFlags` from `addresses.rs` (the header's "addresses present"
bitmask, `rtm_addrs` / `ifam_addrs` / `ifm_addrs`). -/
structure AddressFlags where
  val : Nat
deriving DecidableEq, Repr

def AddressFlags.has_destination (f : AddressFlags) : Bool := (f.val &&& RTA_DST) != 0

def AddressFlags.has_gateway (f : AddressFlags) : Bool := (f.val &&& RTA_GATEWAY) != 0

def AddressFlags.has_netmask (f : AddressFlags) : Bool := (f.val &&& RTA_NETMASK) != 0

def AddressFlags.has_genmask (f : AddressFlags) : Bool := (f.val &&& RTA_GENMASK) != 0

def AddressFlags.has_interface_address (f : AddressFlags) : Bool := (f.val &&& RTA_IFA) != 0

def AddressFlags.has_interface_link (f : AddressFlags) : Bool := (f.val &&& RTA_IFP) != 0

def AddressFlags.has_author (f : AddressFlags) : Bool := (f.val &&& RTA_AUTHOR) != 0

def AddressFlags.has_brd (f : AddressFlags) : Bool := (f.val &&& RTA_BRD) != 0

/-- `AddressSet` from `addresses.rs`. -/
structure AddressSet where
  destination : Option SockAddr
  gateway : Option SockAddr
  netmask : Option IpAddr
  genmask : Option SocketAddr
  broadcast : Option SocketAddr
  interface_addr : Option SockAddr
  interface_link : Option DataLinkAddr
deriving DecidableEq, Repr

/-- The all-`None` initial `AddressSet` built at the top of
`AddressSet::from_raw`. -/
def AddressSet.emptySet : AddressSet :=
  { destination := none, gateway := none, netmask := none, genmask := none
    broadcast := none, interface_addr := none, interface_link := none }

/-- Rust `Option::or`, as used for the netmask fallback sample
(`info.destination.as_ref().or(info.gateway.as_ref())`). -/
def optionOr {α : Type} (a b : Option α) : Option α :=
  match a with
  | some x => some x
  | none => b

/-- The netmask arm of `AddressSet::from_raw`, on the tail of the input
starting at the current offset: try `parse_ip`; on failure fall back using
the previously parsed destination-or-gateway sample (4 raw bytes for an IPv4
sample, 16 for IPv6, slice-index panic when too few bytes remain, panic for
a link sample), and with no sample return the original error. -/
def netmaskStep (tail : List Nat) (dest gw : Option SockAddr) :
    Except PErr (IpAddr × Nat) :=
  match parse_ip tail with
  | .ok (.V4 a, len) => .ok (.V4 a.octets, len)
  | .ok (.V6 a, len) => .ok (.V6 a.octets, len)
  | .error e =>
    match optionOr dest gw with
    | some (.V4 _) =>
      if 4 ≤ tail.length then .ok (.V4 (tail.take 4), 4) else .error .Panicked
    | some (.V6 _) =>
      if 16 ≤ tail.length then .ok (.V6 (tail.take 16), 16) else .error .Panicked
    | some (.Link _) => .error .Panicked
    | none => .error e

/-- The eight positional address slots, in the canonical order of the
`RTA_*` bits. -/
inductive Slot where
  | Dst
  | Gateway
  | Netmask
  | Genmask
  | IfLink
  | IfAddr
  | Author
  | Brd
deriving DecidableEq, Repr

/-- The canonical record order followed by `AddressSet::from_raw`
(the eight `if flags.has_*` blocks, in source order). -/
def canonicalOrder : List Slot :=
  [.Dst, .Gateway, .Netmask, .Genmask, .IfLink, .IfAddr, .Author, .Brd]

/-- Which slots are marked present by the bitmask. -/
def AddressFlags.hasSlot (f : AddressFlags) : Slot → Bool
  | .Dst => f.has_destination
  | .Gateway => f.has_gateway
  | .Netmask => f.has_netmask
  | .Genmask => f.has_genmask
  | .IfLink => f.has_interface_link
  | .IfAddr => f.has_interface_address
  | .Author => f.has_author
  | .Brd => f.has_brd

/-- One `if flags.has_*` block body of `AddressSet::from_raw`: parse the
record for the given slot at `offset` and update the set and offset.
`Brd` assigns `broadcast` without advancing the offset, and `Author` parses
and discards, both exactly as in the source. -/
def AddressSet.step (data : List Nat) (info : AddressSet) (offset : Nat) :
    Slot → Except PErr (AddressSet × Nat)
  | .Dst =>
    match parse_address (data.drop offset) with
    | .ok (dest, len) => .ok ({ info with destination := dest }, offset + len)
    | .error e => .error e
  | .Gateway =>
    match parse_address (data.drop offset) with
    | .ok (gw, len) => .ok ({ info with gateway := gw }, offset + len)
    | .error e => .error e
  | .Netmask =>
    match netmaskStep (data.drop offset) info.destination info.gateway with
    | .ok (ip, len) => .ok ({ info with netmask := some ip }, offset + len)
    | .error e => .error e
  | .Genmask =>
    match parse_ip (data.drop offset) with
    | .ok (genmask, len) => .ok ({ info with genmask := some genmask }, offset + len)
    | .error e => .error e
  | .IfLink =>
    match parse_link (data.drop offset) with
    | .ok (if_link, len) => .ok ({ info with interface_link := some if_link }, offset + len)
    | .error e => .error e
  | .IfAddr =>
    match parse_address (data.drop offset) with
    | .ok (interface_addr, len) => .ok ({ info with interface_addr := interface_addr }, offset + len)
    | .error e => .error e
  | .Author =>
    match parse_address (data.drop offset) with
    | .ok (_, len) => .ok (info, offset + len)
    | .error e => .error e
  | .Brd =>
    match parse_ip (data.drop offset) with
    | .ok (broadcast, _) => .ok ({ info with broadcast := some broadcast }, offset)
    | .error e => .error e

/-- The sequence of guarded blocks of `AddressSet::from_raw`: for each slot
whose bit is set, first the early-exit check `offset >= n` (return the
partial set built so far as `Ok`), then the block body. -/
def AddressSet.go (data : List Nat) (flags : AddressFlags) :
    List Slot → AddressSet → Nat → Except PErr AddressSet
  | [], info, _ => .ok info
  | s :: rest, info, offset =>
    if flags.hasSlot s then
      if offset ≥ data.length then .ok info
      else
        match AddressSet.step data info offset s with
        | .ok (info2, off2) => AddressSet.go data flags rest info2 off2
        | .error e => .error e
    else AddressSet.go data flags rest info offset

/-- `AddressSet::from_raw` from `addresses.rs`: run the eight canonical
blocks over the byte slice that follows the message header. -/
def AddressSet.from_raw (data : List Nat) (flags : AddressFlags) :
    Except PErr AddressSet :=
  AddressSet.go data flags canonicalOrder AddressSet.emptySet 0

/-- `AddressOperation` from `addresses.rs`. -/
inductive AddressOperation where
  | Add
  | Delete
deriving DecidableEq, Repr

/-- `AddressInfoFlags` from `addresses.rs` (route flags of an interface
address event; only the predicates used by `main.rs` are carried over). -/
structure AddressInfoFlags where
  val : Nat
deriving DecidableEq, Repr

def AddressInfoFlags.is_up (f : AddressInfoFlags) : Bool := (f.val &&& RTF_UP) != 0

def AddressInfoFlags.is_dead (f : AddressInfoFlags) : Bool := (f.val &&& RTF_DEAD) != 0

/-- `AddressInfo` from `addresses.rs`. -/
structure AddressInfo where
  operation : AddressOperation
  index : Nat
  metric : Nat
  flags : AddressInfoFlags
  addrs : AddressSet
deriving DecidableEq, Repr

/-- `MessageType` from `src/libroute/src/route.rs`. -/
inductive route.MessageType where
  | Add
  | Delete
  | Change
  | Get
  | Get2
deriving DecidableEq, Repr

/-- `route::MessageType::from` (also the inline `rtm_type` match in
`RouteInfo::from_raw`, which recognises the same five values). -/
def route.MessageType.from (value : Nat) : Option route.MessageType :=
  if value = RTM_ADD then some .Add
  else if value = RTM_DELETE then some .Delete
  else if value = RTM_CHANGE then some .Change
  else if value = RTM_GET then some .Get
  else if value = RTM_GET2 then some .Get2
  else none

/-- `RoutingFlags` from `route.rs`. -/
structure route.RoutingFlags where
  val : Nat
deriving DecidableEq, Repr

def route.RoutingFlags.from_raw (flags : Nat) : route.RoutingFlags := ⟨flags⟩

def route.RoutingFlags.is_up (f : route.RoutingFlags) : Bool := (f.val &&& RTF_UP) != 0

def route.RoutingFlags.has_gateway (f : route.RoutingFlags) : Bool :=
  (f.val &&& RTF_GATEWAY) != 0

/-- `RouteMetrics` from `route.rs` (each field is the raw u32 read from the
`rt_metrics` block of the message header; signed fields keep their raw
two's-complement value). -/
structure route.RouteMetrics where
  mtu : Nat
  hopcount : Nat
  expire : Nat
  recvpipe : Nat
  sendpipe : Nat
  ssthresh : Nat
  rtt : Nat
  rttvar : Nat
  packets_sent : Nat
deriving DecidableEq, Repr

/-- `RouteMetrics::from_raw` applied to the `rtm_rmx` block of a route
message: `rt_metrics` sits at byte offset 36 of `rt_msghdr`, and its fields
(`rmx_locks` first) are consecutive u32s, so `rmx_mtu` is at 40 and so on. -/
def route.RouteMetrics.from_raw (data : List Nat) : route.RouteMetrics :=
  { mtu := readLE32 data 40
    hopcount := readLE32 data 44
    expire := readLE32 data 48
    recvpipe := readLE32 data 52
    sendpipe := readLE32 data 56
    ssthresh := readLE32 data 60
    rtt := readLE32 data 64
    rttvar := readLE32 data 68
    packets_sent := readLE32 data 72 }

/-- `RouteInfo` from `route.rs`.  The address fields receive the results of
`parse_address` (the snapshot declares them with the `SocketAddr` alias of
the same commit); the interface name, produced by the platform lookup
`interface_index_to_name`, is kept as optional raw name bytes. -/
structure route.RouteInfo where
  operation : route.MessageType
  destination : Option SockAddr
  gateway : Option SockAddr
  netmask : Option SockAddr
  broadcast : Option SockAddr
  interface_addr : Option SockAddr
  interface_name : Option (List Nat)
  flags : route.RoutingFlags
  metrics : route.RouteMetrics
deriving DecidableEq, Repr

/-- The eight `if addr_flags.has_*` blocks of `route::RouteInfo::from_raw`,
operating on `addrs_data = data[sizeof(rt_msghdr)..]`.  Slicing
`&addrs_data[offset..]` panics when `offset` exceeds the slice length. -/
def route.parseRest (op : route.MessageType) (flags : route.RoutingFlags)
    (interface_name : Option (List Nat)) (metrics : route.RouteMetrics)
    (addr_flags : AddressFlags) (addrs_data : List Nat) :
    Except PErr (Option route.RouteInfo) := do
  let mut offset := 0
  let mut destination : Option SockAddr := none
  let mut gateway : Option SockAddr := none
  let mut netmask : Option SockAddr := none
  let mut broadcast : Option SockAddr := none
  let mut interface_addr : Option SockAddr := none
  if addr_flags.has_destination then
    if offset > addrs_data.length then throw PErr.Panicked
    let (dest, len) ← parse_address (addrs_data.drop offset)
    destination := dest
    offset := offset + len
  if addr_flags.has_gateway then
    if offset > addrs_data.length then throw PErr.Panicked
    let (gw, len) ← parse_address (addrs_data.drop offset)
    gateway := gw
    offset := offset + len
  if addr_flags.has_netmask then
    if offset > addrs_data.length then throw PErr.Panicked
    let (nm, len) ← parse_address (addrs_data.drop offset)
    netmask := nm
    offset := offset + len
  if addr_flags.has_genmask then
    if offset > addrs_data.length then throw PErr.Panicked
    let (_, len) ← parse_address (addrs_data.drop offset)
    offset := offset + len
  if addr_flags.has_interface_link then
    if offset > addrs_data.length then throw PErr.Panicked
    let (_, len) ← parse_address (addrs_data.drop offset)
    offset := offset + len
  if addr_flags.has_interface_address then
    if offset > addrs_data.length then throw PErr.Panicked
    let (ia, len) ← parse_address (addrs_data.drop offset)
    interface_addr := ia
    offset := offset + len
  if addr_flags.has_author then
    if offset > addrs_data.length then throw PErr.Panicked
    let (_, len) ← parse_address (addrs_data.drop offset)
    offset := offset + len
  if addr_flags.has_brd then
    if offset > addrs_data.length then throw PErr.Panicked
    let (brd, _) ← parse_address (addrs_data.drop offset)
    broadcast := brd
  return some
    { operation := op
      destination := destination
      gateway := gateway
      netmask := netmask
      broadcast := broadcast
      interface_addr := interface_addr
      interface_name := interface_name
      flags := flags
      metrics := metrics }

/-- `route::RouteInfo::from_raw`: copy the `rt_msghdr` fields from the head
of the slice (`rtm_type` at offset 3, `rtm_index` at 4, `rtm_flags` at 8,
`rtm_addrs` at 12), return `Ok(None)` for unrecognised types, then slice off
the 92-byte header (a panic when the slice is shorter) and run the address
blocks.  `ifn` stands for the platform lookup `interface_index_to_name`. -/
def route.RouteInfo.from_raw (ifn : Nat → Option (List Nat)) (data : List Nat) :
    Except PErr (Option route.RouteInfo) :=
  match route.MessageType.from (byteAt data 3) with
  | none => .ok none
  | some op =>
    if data.length < rtMsghdrSize then .error .Panicked
    else
      route.parseRest op (route.RoutingFlags.from_raw (readLE32 data 8))
        (ifn (readLE16 data 4)) (route.RouteMetrics.from_raw data)
        (AddressFlags.mk (readLE32 data 12)) (data.drop rtMsghdrSize)

/-- `MessageType` from `src/libroute/src/link.rs`. -/
inductive link.MessageType where
  | Info
  | NewAddr
  | NewMAddr
  | DelAddr
  | DelMAddr
  | Info2
  | NewMAddr2
deriving DecidableEq, Repr

/-- `link::MessageType::from_raw`. -/
def link.MessageType.from_raw (value : Nat) : Option link.MessageType :=
  if value = RTM_IFINFO then some .Info
  else if value = RTM_NEWADDR then some .NewAddr
  else if value = RTM_NEWMADDR then some .NewMAddr
  else if value = RTM_DELADDR then some .DelAddr
  else if value = RTM_DELMADDR then some .DelMAddr
  else if value = RTM_IFINFO2 then some .Info2
  else if value = RTM_NEWMADDR2 then some .NewMAddr2
  else none

/-- `LinkInfo` from `link.rs`. -/
structure link.LinkInfo where
  destination : Option SockAddr
  gateway : Option SockAddr
  netmask : Option SockAddr
  interface_addr : Option SockAddr
  broadcast : Option SockAddr
  operation : link.MessageType
  index : Nat
deriving DecidableEq, Repr

/-- The eight `if addr_flags.has_*` blocks of `link::LinkInfo::from_raw`,
on `addrs_data = data[sizeof(if_msghdr)..]`. -/
def link.parseRest (op : link.MessageType) (index : Nat)
    (addr_flags : AddressFlags) (addrs_data : List Nat) :
    Except PErr (Option link.LinkInfo) := do
  let mut offset := 0
  let mut destination : Option SockAddr := none
  let mut gateway : Option SockAddr := none
  let mut netmask : Option SockAddr := none
  let mut interface_addr : Option SockAddr := none
  let mut broadcast : Option SockAddr := none
  if addr_flags.has_destination then
    if offset > addrs_data.length then throw PErr.Panicked
    let (dest, len) ← parse_address (addrs_data.drop offset)
    destination := dest
    offset := offset + len
  if addr_flags.has_gateway then
    if offset > addrs_data.length then throw PErr.Panicked
    let (gw, len) ← parse_address (addrs_data.drop offset)
    gateway := gw
    offset := offset + len
  if addr_flags.has_netmask then
    if offset > addrs_data.length then throw PErr.Panicked
    let (nm, len) ← parse_address (addrs_data.drop offset)
    netmask := nm
    offset := offset + len
  if addr_flags.has_genmask then
    if offset > addrs_data.length then throw PErr.Panicked
    let (_, len) ← parse_address (addrs_data.drop offset)
    offset := offset + len
  if addr_flags.has_interface_link then
    if offset > addrs_data.length then throw PErr.Panicked
    let (_, len) ← parse_address (addrs_data.drop offset)
    offset := offset + len
  if addr_flags.has_interface_address then
    if offset > addrs_data.length then throw PErr.Panicked
    let (ia, len) ← parse_address (addrs_data.drop offset)
    interface_addr := ia
    offset := offset + len
  if addr_flags.has_author then
    if offset > addrs_data.length then throw PErr.Panicked
    let (_, len) ← parse_address (addrs_data.drop offset)
    offset := offset + len
  if addr_flags.has_brd then
    if offset > addrs_data.length then throw PErr.Panicked
    let (brd, _) ← parse_address (addrs_data.drop offset)
    broadcast := brd
  return some
    { destination := destination
      gateway := gateway
      netmask := netmask
      interface_addr := interface_addr
      broadcast := broadcast
      operation := op
      index := index }

/-- `link::LinkInfo::from_raw`: when the 112-byte `if_msghdr` struct is
larger than the slice, log and return `Ok(None)` (skip); otherwise read
`ifm_type` (offset 3), `ifm_addrs` (offset 4) and `ifm_index` (offset 12),
panicking (`.unwrap()`) on an unrecognised type, and run the address blocks
on the tail. -/
def link.LinkInfo.from_raw (data : List Nat) : Except PErr (Option link.LinkInfo) :=
  if ifMsghdrSize > data.length then .ok none
  else
    match link.MessageType.from_raw (byteAt data 3) with
    | none => .error .Panicked
    | some op =>
      link.parseRest op (readLE16 data 12) (AddressFlags.mk (readLE32 data 4))
        (data.drop ifMsghdrSize)

/-- Modelled from the spec: `RouteInfo` as consumed by `main.rs`
(spec §3: operation, flags, metrics, interface index and an `AddressSet`).
The struct declaration of this revision is not under `src/`; `main.rs`
accesses exactly `operation` (a `route::MessageType`), `flags` (with
`is_up`), `index` and `addrs`. -/
structure ev.RouteInfo where
  operation : route.MessageType
  flags : route.RoutingFlags
  metrics : route.RouteMetrics
  index : Nat
  addrs : AddressSet
deriving DecidableEq, Repr

/-- Modelled from the spec: the `Event` tagged union (spec §3), called
`Header` by `main.rs` (`libroute::header::Header`); the enum declaration of
this revision is not under `src/`.  The `Link` and `Address` payloads are the
`src/` types; only the `Route` payload is inspected by the default-route
predicate. -/
inductive Header where
  | Route (info : ev.RouteInfo)
  | Link (info : link.LinkInfo)
  | Address (info : AddressInfo)
deriving DecidableEq, Repr

/-- `ZERO_IPV4` from `main.rs` (`Ipv4Addr::from([0, 0, 0, 0])`), as octets. -/
def ZERO_IPV4 : List Nat := [0, 0, 0, 0]

/-- `ZERO_IPV6` from `main.rs` (`Ipv6Addr::from([0u16; 8])`), as the sixteen
zero octets. -/
def ZERO_IPV6 : List Nat := List.replicate 16 0

/-- `is_ready_default_route` from `src/pkg/src/main.rs`: only a `Route`
event whose operation is `Add`, `Get` or `Change`, whose flags include
`RTF_UP`, whose gateway is present, and whose destination is the all-zeros
IPv4 or IPv6 address. -/
def is_ready_default_route (h : Header) : Bool :=
  match h with
  | .Route info =>
    if !(match info.operation with
         | .Add => true
         | .Get => true
         | .Change => true
         | _ => false) then false
    else if !(info.flags.is_up && info.addrs.gateway.isSome) then false
    else
      match info.addrs.destination with
      | some (.V4 addr) => addr.octets == ZERO_IPV4
      | some (.V6 addr) => addr.octets == ZERO_IPV6
      | _ => false
  | _ => false

/-- `ReadError` from `src/libroute/src/socket.rs`.  The `IO` variant (named
`Io` here) keeps the wrapped `io::Error` as its `raw_os_error()` code. -/
inductive ReadError where
  | Timeout
  | Io (raw_os_error : Option Int)
  | ParsingAddress (e : PErr)
deriving DecidableEq, Repr

/-- `impl From<io::Error> for ReadError` in `socket.rs`: raw OS error 11 or
35 becomes `Timeout`, anything else is wrapped in `IO`. -/
def ReadError.from_io (raw : Option Int) : ReadError :=
  if raw = some 11 ∨ raw = some 35 then .Timeout else .Io raw

/-- The exit-code mapping of `main` in `src/pkg/src/main.rs`:
`Ok` is 0, `IO` is 1, `Timeout` is 2, `ParsingAddress` is 3. -/
def mainExitCode : Except ReadError Unit → Nat
  | .ok _ => 0
  | .error .Timeout => 2
  | .error (.Io _) => 1
  | .error (.ParsingAddress _) => 3

/-- The `rt_msghdr` header built by the request builders in `socket.rs`
(field values as written by the source; multi-byte fields are serialised in
host order by the byte-for-byte struct copy). -/
structure rt_msghdr_req where
  rtm_msglen : Nat
  rtm_version : Nat
  rtm_type : Nat
  rtm_index : Nat
  rtm_flags : Nat
  rtm_addrs : Nat
  rtm_pid : Nat
  rtm_seq : Nat
  rtm_errno : Nat
  rtm_use : Nat
  rtm_inits : Nat
deriving DecidableEq, Repr

/-- The `sockaddr_dl` record built by `interface_info_req` in `socket.rs`. -/
structure sockaddr_dl_req where
  sdl_len : Nat
  sdl_family : Nat
  sdl_index : Nat
  sdl_type : Nat
  sdl_nlen : Nat
  sdl_alen : Nat
  sdl_slen : Nat
  sdl_data : List Nat
deriving DecidableEq, Repr

/-- `INT_REQ_SIZE` from `socket.rs`: `sizeof(rt_msghdr) + sizeof(sockaddr_dl)`. -/
def INT_REQ_SIZE : Nat := rtMsghdrSize + sockaddrDlSize

/-- `interface_info_req` from `socket.rs`: the route-get header scoped to
the interface index (`RTF_IFSCOPE | RTF_HOST`, `RTA_DST | RTA_IFP |
RTA_IFA`), followed by a `sockaddr_dl` record carrying the index — whose
`sdl_family` byte the source sets to `AF_INET`.  The serialised request is
the two structs copied byte for byte (`rtm_rmx` is all zeroes). -/
def interface_info_req (if_idx : Nat) (seq : Nat) : rt_msghdr_req × sockaddr_dl_req :=
  ({ rtm_msglen := INT_REQ_SIZE
     rtm_version := RTM_VERSION
     rtm_type := RTM_GET
     rtm_index := if_idx
     rtm_flags := RTF_IFSCOPE ||| RTF_HOST
     rtm_addrs := RTA_DST ||| RTA_IFP ||| RTA_IFA
     rtm_pid := 0
     rtm_seq := seq
     rtm_errno := 0
     rtm_use := 0
     rtm_inits := 0 },
   { sdl_len := sockaddrDlSize
     sdl_family := AF_INET
     sdl_index := if_idx
     sdl_type := 0
     sdl_nlen := 0
     sdl_alen := 0
     sdl_slen := 0
     sdl_data := List.replicate 12 0 })

/-! Theorems -/

/-- C1: the default-route wait condition is satisfied if and only if the
event is a `Route` event whose operation is `Add`, `Get` or `Change`, whose
route flags include `UP`, whose gateway is present, and whose destination is
the all-zeros IPv4 or the all-zeros IPv6 address; every other event
(including a missing or link-family destination) leaves the evaluator
waiting. -/
theorem c1_default_route_condition (h : Header) :
    is_ready_default_route h = true ↔
      ∃ info, h = .Route info ∧
        (info.operation = .Add ∨ info.operation = .Get ∨ info.operation = .Change) ∧
        info.flags.is_up = true ∧ info.addrs.gateway.isSome = true ∧
        ((∃ a, info.addrs.destination = some (.V4 a) ∧ a.octets = ZERO_IPV4) ∨
         (∃ a, info.addrs.destination = some (.V6 a) ∧ a.octets = ZERO_IPV6)) := by
  cases h with
  | Link i => simp [is_ready_default_route]
  | Address i => simp [is_ready_default_route]
  | Route info =>
    rcases info with ⟨op, flags, metrics, index, addrs⟩
    rcases addrs with ⟨dst, gw, nm, gm, brd, ia, il⟩
    simp only [is_ready_default_route, Header.Route.injEq, ev.RouteInfo.mk.injEq,
      exists_eq_left, exists_and_left]
    cases op <;> cases hup : route.RoutingFlags.is_up flags <;> cases gw <;>
      rcases dst with _ | d <;> try simp_all
    all_goals (rcases d with a | a | a <;> simp_all [Bool.beq_eq_decide_eq])

/-- C1 witness: a concrete `RTM_GET` route event with flags `UP`, a gateway
and destination `0.0.0.0:0` satisfies the default-route condition. -/
theorem c1_witness :
    is_ready_default_route (Header.Route
      { operation := .Get
        flags := ⟨1⟩
        metrics := ⟨0, 0, 0, 0, 0, 0, 0, 0, 0⟩
        index := 0
        addrs := { destination := some (.V4 ⟨[0, 0, 0, 0], 0⟩)
                   gateway := some (.V4 ⟨[192, 168, 1, 1], 0⟩)
                   netmask := none, genmask := none, broadcast := none
                   interface_addr := none, interface_link := none } }) = true :=
  (c1_default_route_condition _).mpr
    ⟨_, rfl, Or.inr (Or.inl rfl), by decide, rfl, Or.inl ⟨_, rfl, rfl⟩⟩

/-- C2: the exit-code mapping of `main` sends success to 0, I/O errors to 1,
timeout to 2 and address/message parse errors to 3, and produces no other
code. -/
theorem c2_exit_codes :
    mainExitCode (.ok ()) = 0 ∧
    (∀ c, mainExitCode (.error (.Io c)) = 1) ∧
    mainExitCode (.error .Timeout) = 2 ∧
    (∀ e, mainExitCode (.error (.ParsingAddress e)) = 3) ∧
    ∀ r, mainExitCode r = 0 ∨ mainExitCode r = 1 ∨ mainExitCode r = 2 ∨
      mainExitCode r = 3 := by
  refine ⟨rfl, fun c => rfl, rfl, fun e => rfl, fun r => ?_⟩
  rcases r with e | u
  · cases e with
    | Timeout => exact Or.inr (Or.inr (Or.inl rfl))
    | Io c => exact Or.inr (Or.inl rfl)
    | ParsingAddress e => exact Or.inr (Or.inr (Or.inr rfl))
  · exact Or.inl rfl

/-- C8 counterexample: the socket-address record built by
`interface_info_req` (here at index 7, sequence 1) carries family byte
`AF_INET`, not the link family `AF_LINK`, so the request does not end in a
link-family record. -/
theorem c8_counterexample :
    (interface_info_req 7 1).2.sdl_family = AF_INET ∧
    (interface_info_req 7 1).2.sdl_family ≠ AF_LINK :=
  ⟨rfl, by decide⟩

/-- C8 amended: for every interface index the request is a route-get header
with flags `IFSCOPE | HOST` and address mask `DST | IFP | IFA`, followed by a
`sockaddr_dl`-shaped record carrying the target index — but the record's
family byte is `AF_INET`, not `AF_LINK`. -/
theorem c8_amended_interface_info_request (if_idx seq : Nat) :
    (interface_info_req if_idx seq).1.rtm_type = RTM_GET ∧
    (interface_info_req if_idx seq).1.rtm_version = RTM_VERSION ∧
    (interface_info_req if_idx seq).1.rtm_flags = (RTF_IFSCOPE ||| RTF_HOST) ∧
    (interface_info_req if_idx seq).1.rtm_addrs = (RTA_DST ||| RTA_IFP ||| RTA_IFA) ∧
    (interface_info_req if_idx seq).1.rtm_index = if_idx ∧
    (interface_info_req if_idx seq).1.rtm_msglen = INT_REQ_SIZE ∧
    (interface_info_req if_idx seq).2.sdl_index = if_idx ∧
    (interface_info_req if_idx seq).2.sdl_family = AF_INET ∧
    (interface_info_req if_idx seq).2.sdl_family ≠ AF_LINK :=
  ⟨rfl, rfl, rfl, rfl, rfl, rfl, rfl, rfl, by show AF_INET ≠ AF_LINK; decide⟩

/-- C8 amended witness: the request built for interface index 7 is a
route-get carrying index 7 in its trailing record. -/
theorem c8_amended_witness :
    (interface_info_req 7 1).1.rtm_type = RTM_GET ∧
    (interface_info_req 7 1).2.sdl_index = 7 :=
  ⟨(c8_amended_interface_info_request 7 1).1,
   (c8_amended_interface_info_request 7 1).2.2.2.2.2.2.1⟩

/-- C10: converting an I/O error on the receive path yields `Timeout`
exactly for raw OS error codes 11 and 35, and the `IO` variant otherwise;
through the exit-code mapping such errors exit 2 (timeout) rather than 1. -/
theorem c10_io_error_to_timeout (c : Option Int) :
    (ReadError.from_io c = .Timeout ↔ (c = some 11 ∨ c = some 35)) ∧
    ((c = some 11 ∨ c = some 35) →
      mainExitCode (.error (ReadError.from_io c)) = 2) ∧
    (¬(c = some 11 ∨ c = some 35) →
      ReadError.from_io c = .Io c ∧
        mainExitCode (.error (ReadError.from_io c)) = 1) := by
  by_cases h : c = some 11 ∨ c = some 35 <;>
    simp [ReadError.from_io, h, mainExitCode]

/-- C10 witness: raw OS error 11 (EAGAIN) becomes `Timeout` and exits 2. -/
theorem c10_witness :
    ReadError.from_io (some 11) = .Timeout ∧
    mainExitCode (.error (ReadError.from_io (some 11))) = 2 :=
  ⟨(c10_io_error_to_timeout (some 11)).1.mpr (Or.inl rfl),
   (c10_io_error_to_timeout (some 11)).2.1 (Or.inl rfl)⟩

/-- Any error produced by `DataLinkAddr.from_raw` is a panic (the failed
`AF_LINK` assertion or an out-of-range `sdl_data` slice). -/
theorem dataLinkAddr_from_raw_error_is_panic (data : List Nat) (e : PErr) :
    DataLinkAddr.from_raw data = .error e → e = .Panicked := by
  unfold DataLinkAddr.from_raw
  intro h
  split at h
  · exact ((Except.error.injEq _ _).mp h).symm
  · split at h
    · exact absurd h (by simp)
    · exact ((Except.error.injEq _ _).mp h).symm

/-- Any error produced by `SockAddr.from_raw` is the empty-slice error or a
panic; in particular the decoder never reports `PartialData`. -/
theorem sockAddr_from_raw_error_cases (data : List Nat) (e : PErr) :
    SockAddr.from_raw data = .error e → e = .DataEmpty ∨ e = .Panicked := by
  unfold SockAddr.from_raw
  intro h
  split at h
  · exact Or.inl ((Except.error.injEq _ _).mp h).symm
  · split at h
    · exact absurd h (by simp)
    · split at h
      · exact absurd h (by simp)
      · split at h
        · split at h
          · exact absurd h (by simp)
          · rename_i e2 heq
            have h2 := ((Except.error.injEq _ _).mp h).symm
            subst h2
            exact Or.inr (dataLinkAddr_from_raw_error_is_panic data e heq)
        · split at h
          · exact Or.inr ((Except.error.injEq _ _).mp h).symm
          · exact absurd h (by simp)

/-- C4 counterexample: a 16-byte record whose declared length byte is 200
(exceeding the slice length) is decoded successfully by `SockAddr::from_raw`
— it returns the IPv4 address and the declared length 200, not the
`PartialData` error. -/
theorem c4_counterexample :
    byteAt (200 :: 2 :: List.replicate 14 0) 0 = 200 ∧
    (200 :: 2 :: List.replicate 14 0).length = 16 ∧
    SockAddr.from_raw (200 :: 2 :: List.replicate 14 0) =
      .ok (some (.V4 ⟨[0, 0, 0, 0], 0⟩), 200) := by
  decide

/-- C4 amended: `SockAddr::from_raw` performs no declared-length versus
slice-length check and never fails with `PartialData`, whatever the length
byte; the `PartialData` check exists only in the `NetStruct::from_slice`
helper, which the decoding path does not call. -/
theorem c4_amended_no_partial_data_check :
    (∀ data, SockAddr.from_raw data ≠ .error .PartialData) ∧
    (∀ data, data ≠ [] → data.length < byteAt data 0 →
      SocketAddrV4.from_slice data = .error .PartialData) := by
  constructor
  · intro data hcontra
    rcases sockAddr_from_raw_error_cases data .PartialData hcontra with h | h <;>
      exact absurd h (by decide)
  · intro data hne hgt
    have hemp : data.isEmpty = false := by
      simpa [List.isEmpty_iff] using hne
    simp [SocketAddrV4.from_slice, hemp, hgt]

/-- C4 amended witness: at the concrete input `[200, 0]` the decoder
succeeds while the unused `from_slice` helper would report `PartialData`. -/
theorem c4_amended_witness :
    SockAddr.from_raw [200, 0] ≠ .error .PartialData ∧
    SocketAddrV4.from_slice [200, 0] = .error .PartialData :=
  ⟨c4_amended_no_partial_data_check.1 [200, 0],
   c4_amended_no_partial_data_check.2 [200, 0] (by decide) (by decide)⟩

/-- C5 counterexample: on a non-empty slice whose length byte is 0 the
decoder does not return a skip: with a known family byte (here `AF_INET`) it
returns a decoded address with 0 bytes consumed, and with an unknown family
byte it panics on the `len != 0` assertion. -/
theorem c5_counterexample :
    byteAt (0 :: 2 :: List.replicate 14 0) 0 = 0 ∧
    (0 :: 2 :: List.replicate 14 0) ≠ [] ∧
    SockAddr.from_raw (0 :: 2 :: List.replicate 14 0) =
      .ok (some (.V4 ⟨[0, 0, 0, 0], 0⟩), 0) ∧
    SockAddr.from_raw [0, 0] = .error .Panicked := by
  decide

/-- C5 amended: a zero length byte is not special-cased: for family
`AF_INET` or `AF_INET6` the decoder returns the decoded address with 0 bytes
consumed; for `AF_LINK` it returns the decoded link address with 0 bytes
consumed when `sdl_nlen + sdl_alen` fits the 12-byte `sdl_data` region, and
panics on the out-of-range `sdl_data` slice otherwise; for an unknown family
it aborts on the zero-length assertion.  In no case is there a skip-with-0
end-of-records result. -/
theorem c5_amended_zero_length (data : List Nat) (hne : data ≠ [])
    (hzero : byteAt data 0 = 0) :
    (byteAt data 1 = AF_INET →
      SockAddr.from_raw data = .ok (some (.V4 (SocketAddrV4.from_raw data)), 0)) ∧
    (byteAt data 1 = AF_INET6 →
      SockAddr.from_raw data = .ok (some (.V6 (SocketAddrV6.from_raw data)), 0)) ∧
    (byteAt data 1 = AF_LINK → byteAt data 5 + byteAt data 6 ≤ 12 →
      ∃ dl, DataLinkAddr.from_raw data = .ok dl ∧
        SockAddr.from_raw data = .ok (some (.Link dl), 0)) ∧
    (byteAt data 1 = AF_LINK → 12 < byteAt data 5 + byteAt data 6 →
      SockAddr.from_raw data = .error .Panicked) ∧
    (byteAt data 1 ≠ AF_INET → byteAt data 1 ≠ AF_INET6 → byteAt data 1 ≠ AF_LINK →
      SockAddr.from_raw data = .error .Panicked) := by
  have hemp : data.isEmpty = false := by
    simpa [List.isEmpty_iff] using hne
  refine ⟨fun h4 => ?_, fun h6 => ?_, fun hl hle => ?_, fun hl hgt => ?_,
    fun n4 n6 nl => ?_⟩
  · simp [SockAddr.from_raw, hemp, h4, hzero]
  · have hne4 : byteAt data 1 ≠ AF_INET := by rw [h6]; decide
    simp [SockAddr.from_raw, hemp, h6, hne4, hzero, AF_INET, AF_INET6]
  · have hne4 : byteAt data 1 ≠ AF_INET := by rw [hl]; decide
    have hne6 : byteAt data 1 ≠ AF_INET6 := by rw [hl]; decide
    have hdl : DataLinkAddr.from_raw data =
        .ok { index := readLE16 data 2
              link_layer_addr :=
                (List.range (byteAt data 6)).map (fun i => byteAt data (8 + byteAt data 5 + i))
              interface_name :=
                (List.range (byteAt data 5)).map (fun i => byteAt data (8 + i)) } := by
      unfold DataLinkAddr.from_raw
      rw [if_neg (by simp [hl]), if_pos hle]
    refine ⟨_, hdl, ?_⟩
    simp [SockAddr.from_raw, hemp, hne4, hne6, hl, hdl, hzero, AF_INET, AF_INET6, AF_LINK]
  · have hne4 : byteAt data 1 ≠ AF_INET := by rw [hl]; decide
    have hne6 : byteAt data 1 ≠ AF_INET6 := by rw [hl]; decide
    have hdl : DataLinkAddr.from_raw data = .error .Panicked := by
      unfold DataLinkAddr.from_raw
      rw [if_neg (by simp [hl]), if_neg (by omega)]
    simp [SockAddr.from_raw, hemp, hne4, hne6, hl, hdl, AF_INET, AF_INET6, AF_LINK]
  · simp [SockAddr.from_raw, hemp, n4, n6, nl, hzero]

/-- C5 amended witness: a zero-length IPv6-family record decodes to an IPv6
socket address with 0 bytes consumed. -/
theorem c5_amended_witness :
    SockAddr.from_raw (0 :: 30 :: List.replicate 26 0) =
      .ok (some (.V6 (SocketAddrV6.from_raw (0 :: 30 :: List.replicate 26 0))), 0) :=
  (c5_amended_zero_length _ (by decide) (by decide)).2.1 (by decide)

/-- C6: complete characterisation of the netmask position of
`AddressSet::from_raw`: when the socket-address decoder (`parse_ip`)
succeeds there is no fallback and its result is used; when it fails, the
fallback activates exactly when the previously parsed
destination-or-gateway sample is IPv4 (take the next 4 raw bytes) or IPv6
(the next 16); with no prior destination or gateway the original decoder
error is propagated (a link-family sample panics). -/
theorem c6_netmask_fallback (tail : List Nat) (dest gw : Option SockAddr) :
    (∀ a len, parse_ip tail = .ok (.V4 a, len) →
      netmaskStep tail dest gw = .ok (.V4 a.octets, len)) ∧
    (∀ a len, parse_ip tail = .ok (.V6 a, len) →
      netmaskStep tail dest gw = .ok (.V6 a.octets, len)) ∧
    (∀ e, parse_ip tail = .error e → dest = none → gw = none →
      netmaskStep tail dest gw = .error e) ∧
    (∀ e a, parse_ip tail = .error e → optionOr dest gw = some (.V4 a) →
      4 ≤ tail.length → netmaskStep tail dest gw = .ok (.V4 (tail.take 4), 4)) ∧
    (∀ e a, parse_ip tail = .error e → optionOr dest gw = some (.V6 a) →
      16 ≤ tail.length → netmaskStep tail dest gw = .ok (.V6 (tail.take 16), 16)) ∧
    (∀ e a, parse_ip tail = .error e → optionOr dest gw = some (.Link a) →
      netmaskStep tail dest gw = .error .Panicked) := by
  refine ⟨fun a len hp => ?_, fun a len hp => ?_, fun e hp hd hg => ?_,
    fun e a hp hs hlen => ?_, fun e a hp hs hlen => ?_, fun e a hp hs => ?_⟩
  · simp [netmaskStep, hp]
  · simp [netmaskStep, hp]
  · subst hd; subst hg; simp [netmaskStep, hp, optionOr]
  · simp [netmaskStep, hp, hs, hlen]
  · simp [netmaskStep, hp, hs, hlen]
  · simp [netmaskStep, hp, hs]

/-- C6 witness: scenario S6 of the spec — the destination was IPv4
`10.0.0.0` and the 4-byte netmask record `[255, 255, 0, 0]` has no valid
family byte, so the fallback takes the 4 raw bytes as the IPv4 mask. -/
theorem c6_witness :
    netmaskStep [255, 255, 0, 0] (some (.V4 ⟨[10, 0, 0, 0], 0⟩)) none =
      .ok (.V4 [255, 255, 0, 0], 4) :=
  (c6_netmask_fallback [255, 255, 0, 0] (some (.V4 ⟨[10, 0, 0, 0], 0⟩)) none).2.2.2.1
    (.WrongFamily 2 255) ⟨[10, 0, 0, 0], 0⟩ (by decide) rfl (by decide)

/-- A successful `AddressSet.step` changes only the field belonging to its
slot. -/
theorem AddressSet.step_fields (data : List Nat) (info : AddressSet) (offset : Nat)
    (s : Slot) (info2 : AddressSet) (off2 : Nat)
    (h : AddressSet.step data info offset s = .ok (info2, off2)) :
    (s ≠ .Dst → info2.destination = info.destination) ∧
    (s ≠ .Gateway → info2.gateway = info.gateway) ∧
    (s ≠ .Netmask → info2.netmask = info.netmask) ∧
    (s ≠ .Genmask → info2.genmask = info.genmask) ∧
    (s ≠ .IfLink → info2.interface_link = info.interface_link) ∧
    (s ≠ .IfAddr → info2.interface_addr = info.interface_addr) ∧
    (s ≠ .Brd → info2.broadcast = info.broadcast) := by
  cases s <;> (simp only [AddressSet.step] at h; split at h <;> simp_all)
  all_goals obtain ⟨h1, -⟩ := h
  all_goals subst h1
  all_goals simp

/-- Once the offset has reached the end of the slice, the remaining blocks
of `AddressSet::from_raw` all early-exit and return the current partial set
as a non-error result. -/
theorem AddressSet.go_exhausted (data : List Nat) (flags : AddressFlags) :
    ∀ (slots : List Slot) (info : AddressSet) (offset : Nat),
      data.length ≤ offset →
      AddressSet.go data flags slots info offset = .ok info := by
  intro slots
  induction slots with
  | nil => intro info offset h; rfl
  | cons s rest ih =>
    intro info offset h
    simp only [AddressSet.go]
    by_cases hf : flags.hasSlot s <;> simp [hf, h, ih info offset h]

/-- The populated fields of any successful run of the block sequence are
either inherited from the incoming partial set or licensed by the bitmask. -/
theorem AddressSet.go_mask_subset (data : List Nat) (flags : AddressFlags) :
    ∀ (slots : List Slot) (info : AddressSet) (offset : Nat) (res : AddressSet),
      AddressSet.go data flags slots info offset = .ok res →
      ((res.destination.isSome = true →
          info.destination.isSome = true ∨ flags.has_destination = true) ∧
       (res.gateway.isSome = true →
          info.gateway.isSome = true ∨ flags.has_gateway = true) ∧
       (res.netmask.isSome = true →
          info.netmask.isSome = true ∨ flags.has_netmask = true) ∧
       (res.genmask.isSome = true →
          info.genmask.isSome = true ∨ flags.has_genmask = true) ∧
       (res.interface_link.isSome = true →
          info.interface_link.isSome = true ∨ flags.has_interface_link = true) ∧
       (res.interface_addr.isSome = true →
          info.interface_addr.isSome = true ∨ flags.has_interface_address = true) ∧
       (res.broadcast.isSome = true →
          info.broadcast.isSome = true ∨ flags.has_brd = true)) := by
  intro slots
  induction slots with
  | nil =>
    intro info offset res h
    simp only [AddressSet.go] at h
    have : info = res := by simpa using h
    subst this
    exact ⟨Or.inl, Or.inl, Or.inl, Or.inl, Or.inl, Or.inl, Or.inl⟩
  | cons s rest ih =>
    intro info offset res h
    simp only [AddressSet.go] at h
    by_cases hf : flags.hasSlot s
    · rw [if_pos hf] at h
      by_cases hoff : offset ≥ data.length
      · rw [if_pos hoff] at h
        have : info = res := by simpa using h
        subst this
        exact ⟨Or.inl, Or.inl, Or.inl, Or.inl, Or.inl, Or.inl, Or.inl⟩
      · rw [if_neg hoff] at h
        rcases hstep : AddressSet.step data info offset s with v | p
        · rw [hstep] at h; exact absurd h (by simp)
        · rcases p with ⟨info2, off2⟩
          rw [hstep] at h
          have hi := ih info2 off2 res h
          have hs := AddressSet.step_fields data info offset s info2 off2 hstep
          refine ⟨fun hr => ?_, fun hr => ?_, fun hr => ?_, fun hr => ?_,
            fun hr => ?_, fun hr => ?_, fun hr => ?_⟩
          · rcases hi.1 hr with h2 | h2
            · by_cases hsd : s = Slot.Dst
              · subst hsd
                exact Or.inr (by simpa [AddressFlags.hasSlot] using hf)
              · exact Or.inl (by rw [← hs.1 hsd]; exact h2)
            · exact Or.inr h2
          · rcases hi.2.1 hr with h2 | h2
            · by_cases hsd : s = Slot.Gateway
              · subst hsd
                exact Or.inr (by simpa [AddressFlags.hasSlot] using hf)
              · exact Or.inl (by rw [← hs.2.1 hsd]; exact h2)
            · exact Or.inr h2
          · rcases hi.2.2.1 hr with h2 | h2
            · by_cases hsd : s = Slot.Netmask
              · subst hsd
                exact Or.inr (by simpa [AddressFlags.hasSlot] using hf)
              · exact Or.inl (by rw [← hs.2.2.1 hsd]; exact h2)
            · exact Or.inr h2
          · rcases hi.2.2.2.1 hr with h2 | h2
            · by_cases hsd : s = Slot.Genmask
              · subst hsd
                exact Or.inr (by simpa [AddressFlags.hasSlot] using hf)
              · exact Or.inl (by rw [← hs.2.2.2.1 hsd]; exact h2)
            · exact Or.inr h2
          · rcases hi.2.2.2.2.1 hr with h2 | h2
            · by_cases hsd : s = Slot.IfLink
              · subst hsd
                exact Or.inr (by simpa [AddressFlags.hasSlot] using hf)
              · exact Or.inl (by rw [← hs.2.2.2.2.1 hsd]; exact h2)
            · exact Or.inr h2
          · rcases hi.2.2.2.2.2.1 hr with h2 | h2
            · by_cases hsd : s = Slot.IfAddr
              · subst hsd
                exact Or.inr (by simpa [AddressFlags.hasSlot] using hf)
              · exact Or.inl (by rw [← hs.2.2.2.2.2.1 hsd]; exact h2)
            · exact Or.inr h2
          · rcases hi.2.2.2.2.2.2 hr with h2 | h2
            · by_cases hsd : s = Slot.Brd
              · subst hsd
                exact Or.inr (by simpa [AddressFlags.hasSlot] using hf)
              · exact Or.inl (by rw [← hs.2.2.2.2.2.2 hsd]; exact h2)
            · exact Or.inr h2
    · rw [if_neg hf] at h
      exact ih info offset res h

/-- C7: every field populated in a successful `AddressSet::from_raw` result
has its bit set in the header's address mask; the records are consumed by
the fixed block sequence in the canonical order destination, gateway,
netmask, genmask, interface-link, interface-address, author, broadcast; and
an exhausted input returns the partial (here empty) set as a non-error
result. -/
theorem c7_address_set_mask_and_order :
    (∀ data flags res, AddressSet.from_raw data flags = .ok res →
      (res.destination.isSome = true → flags.has_destination = true) ∧
      (res.gateway.isSome = true → flags.has_gateway = true) ∧
      (res.netmask.isSome = true → flags.has_netmask = true) ∧
      (res.genmask.isSome = true → flags.has_genmask = true) ∧
      (res.interface_link.isSome = true → flags.has_interface_link = true) ∧
      (res.interface_addr.isSome = true → flags.has_interface_address = true) ∧
      (res.broadcast.isSome = true → flags.has_brd = true)) ∧
    (∀ data flags, AddressSet.from_raw data flags =
      AddressSet.go data flags
        [.Dst, .Gateway, .Netmask, .Genmask, .IfLink, .IfAddr, .Author, .Brd]
        AddressSet.emptySet 0) ∧
    (∀ flags, AddressSet.from_raw [] flags = .ok AddressSet.emptySet) := by
  refine ⟨fun data flags res h => ?_, fun data flags => rfl,
    fun flags => AddressSet.go_exhausted [] flags canonicalOrder AddressSet.emptySet 0
      (by simp)⟩
  have hi := AddressSet.go_mask_subset data flags canonicalOrder AddressSet.emptySet 0 res h
  refine ⟨fun hr => ?_, fun hr => ?_, fun hr => ?_, fun hr => ?_,
    fun hr => ?_, fun hr => ?_, fun hr => ?_⟩
  · rcases hi.1 hr with h2 | h2
    · exact absurd h2 (by simp [AddressSet.emptySet])
    · exact h2
  · rcases hi.2.1 hr with h2 | h2
    · exact absurd h2 (by simp [AddressSet.emptySet])
    · exact h2
  · rcases hi.2.2.1 hr with h2 | h2
    · exact absurd h2 (by simp [AddressSet.emptySet])
    · exact h2
  · rcases hi.2.2.2.1 hr with h2 | h2
    · exact absurd h2 (by simp [AddressSet.emptySet])
    · exact h2
  · rcases hi.2.2.2.2.1 hr with h2 | h2
    · exact absurd h2 (by simp [AddressSet.emptySet])
    · exact h2
  · rcases hi.2.2.2.2.2.1 hr with h2 | h2
    · exact absurd h2 (by simp [AddressSet.emptySet])
    · exact h2
  · rcases hi.2.2.2.2.2.2 hr with h2 | h2
    · exact absurd h2 (by simp [AddressSet.emptySet])
    · exact h2

/-- C7 witness: a concrete destination-only mask yields a set whose only
populated field is licensed by the mask, and an empty slice returns the
empty partial set without error. -/
theorem c7_witness :
    (AddressFlags.mk 1).has_destination = true ∧
    AddressSet.from_raw [] ⟨255⟩ = .ok AddressSet.emptySet :=
  ⟨(c7_address_set_mask_and_order.1 (16 :: 2 :: List.replicate 14 0) ⟨1⟩
      { AddressSet.emptySet with destination := some (.V4 ⟨[0, 0, 0, 0], 0⟩) }
      (by decide)).1 (by decide),
   c7_address_set_mask_and_order.2.2 ⟨255⟩⟩

/-- C3 counterexample: a 92-byte `RTM_ADD` route message whose header length
field (bytes 0..2) reads 0, disagreeing with the slice length 92, is decoded
successfully by `RouteInfo::from_raw` — no length assertion fires and the
mismatch is not fatal. -/
theorem c3_counterexample :
    readLE16 ((List.replicate 92 0).set 3 1) 0 = 0 ∧
    ((List.replicate 92 0).set 3 1).length = 92 ∧
    route.RouteInfo.from_raw (fun _ => none) ((List.replicate 92 0).set 3 1) =
      .ok (some
        { operation := .Add, destination := none, gateway := none,
          netmask := none, broadcast := none, interface_addr := none,
          interface_name := none, flags := ⟨0⟩,
          metrics := ⟨0, 0, 0, 0, 0, 0, 0, 0, 0⟩ }) := by
  decide

/-- C3 amended: the decoders never compare the header's length field with
the slice length.  The route decoder's result is unchanged under arbitrary
rewriting of the 16-bit length field (bytes 0 and 1), so mismatched messages
decode exactly like matching ones; and the link decoder, given a slice
shorter than the fixed `if_msghdr` struct, skips the message by returning
`Ok(None)` rather than failing. -/
theorem c3_amended_no_length_check :
    (∀ (ifn : Nat → Option (List Nat)) (data : List Nat) (a b : Nat),
      route.RouteInfo.from_raw ifn ((data.set 0 a).set 1 b) =
        route.RouteInfo.from_raw ifn data) ∧
    (∀ data : List Nat, data.length < ifMsghdrSize →
      link.LinkInfo.from_raw data = .ok none) := by
  constructor
  · intro ifn data a b
    have hb : ∀ j, 2 ≤ j → byteAt ((data.set 0 a).set 1 b) j = byteAt data j := by
      intro j hj
      simp only [byteAt, List.getD_eq_getElem?_getD]
      rw [List.getElem?_set_ne (by omega : (1 : Nat) ≠ j),
        List.getElem?_set_ne (by omega : (0 : Nat) ≠ j)]
    have hr32 : ∀ j, 2 ≤ j →
        readLE32 ((data.set 0 a).set 1 b) j = readLE32 data j := by
      intro j hj
      unfold readLE32
      rw [hb j hj, hb (j + 1) (by omega), hb (j + 2) (by omega), hb (j + 3) (by omega)]
    have h3 := hb 3 (by omega)
    have h4 : readLE16 ((data.set 0 a).set 1 b) 4 = readLE16 data 4 := by
      unfold readLE16
      rw [hb 4 (by omega), hb 5 (by omega)]
    have h8 := hr32 8 (by omega)
    have h12 := hr32 12 (by omega)
    have hm : route.RouteMetrics.from_raw ((data.set 0 a).set 1 b) =
        route.RouteMetrics.from_raw data := by
      unfold route.RouteMetrics.from_raw
      rw [hr32 40 (by omega), hr32 44 (by omega), hr32 48 (by omega),
        hr32 52 (by omega), hr32 56 (by omega), hr32 60 (by omega),
        hr32 64 (by omega), hr32 68 (by omega), hr32 72 (by omega)]
    have hlen : ((data.set 0 a).set 1 b).length = data.length := by simp
    have hdrop : ((data.set 0 a).set 1 b).drop rtMsghdrSize = data.drop rtMsghdrSize := by
      rw [List.drop_set_of_lt _ _ (by decide), List.drop_set_of_lt _ _ (by decide)]
    unfold route.RouteInfo.from_raw
    rw [h3, hlen, hdrop, h4, h8, h12, hm]
  · intro data h
    simp [link.LinkInfo.from_raw, h]

/-- C3 amended witness: the empty slice is skipped by the link decoder. -/
theorem c3_amended_witness : link.LinkInfo.from_raw [] = .ok none :=
  c3_amended_no_length_check.2 [] (by decide)

end Netawait
